import Mathlib

/-!
Verification development for the retail-chain inventory tracker.

Shallow embedding of the inventory ledger core:
`src/backend/models.py` (data model) and
`src/backend/services/inventory_service.py` (operations), plus the
polling endpoint `get_changes` of `src/backend/api.py`.

Modelling conventions:
* the committed database state is a `DBState` record of lists of rows;
* SQLAlchemy's transactional semantics (commit / rollback in the
  `except` clauses) is modelled by the operations returning
  `Except String (DBState × result)`: on `.error` the pre-call state is
  kept, exactly what `db.session.rollback()` produces for the committed
  state;
* wall-clock time (`datetime.now(timezone.utc)`) is modelled as one
  logical timestamp `now : Nat` per mutating call: every row written by
  one call is stamped with that call's timestamp, matching the single
  commit that stamps them;
* Python integer truthiness (`if store_id:`) is modelled faithfully:
  a filter value of `0` behaves like `None`;
* the f-string notes of transfer transactions are modelled by the
  inductive `Note`, whose `render` function produces exactly the
  strings the code builds; the constructor records which side of a
  transfer a TRANSFER row belongs to, which in the code is recoverable
  only from the note's text prefix.
-/

namespace Retail

/-- `type` column of a `Transaction` row: the code writes the strings
"IN", "OUT" and "TRANSFER". -/
inductive TxType where
  | IN : TxType
  | OUT : TxType
  | TRANSFER : TxType
deriving DecidableEq, Repr

/-- The `note` column. `update_stock` stores the caller's reason
verbatim; `transfer_stock` builds the two f-strings
"Transfer OUT to {to_store.name}: {reason}" and
"Transfer IN from {from_store.name}: {reason}". -/
inductive Note where
  | plain (reason : String) : Note
  | transferOut (destName reason : String) : Note
  | transferIn (srcName reason : String) : Note
deriving DecidableEq, Repr

/-- The exact string stored in the database for a `Note`. -/
def Note.render : Note → String
  | .plain reason => reason
  | .transferOut destName reason => "Transfer OUT to " ++ destName ++ ": " ++ reason
  | .transferIn srcName reason => "Transfer IN from " ++ srcName ++ ": " ++ reason

/-- `stores` table row (`models.py`, class `Store`). -/
structure Store where
  id : Nat
  name : String
  location : String
deriving DecidableEq, Repr

/-- `products` table row (`models.py`, class `Product`). -/
structure Product where
  id : Nat
  sku : String
  name : String
  category : String
  reorder_level : Int
deriving DecidableEq, Repr

/-- `inventory_items` table row (`models.py`, class `InventoryItem`). -/
structure InventoryItem where
  store_id : Nat
  product_id : Nat
  quantity : Int
  last_updated : Nat
deriving DecidableEq, Repr

/-- `transactions` table row (`models.py`, class `Transaction`). -/
structure Transaction where
  product_id : Nat
  store_id : Nat
  type : TxType
  quantity : Int
  timestamp : Nat
  note : Note
  related_store_id : Option Nat
  user_id : Option Nat
deriving DecidableEq, Repr

/-- The committed database state. -/
structure DBState where
  stores : List Store
  products : List Product
  items : List InventoryItem
  transactions : List Transaction
deriving DecidableEq, Repr

/-- `Store.query.get(store_id)`. -/
def getStoreById (s : DBState) (store_id : Nat) : Option Store :=
  s.stores.find? (fun st => st.id == store_id)

/-- `Product.query.get(product_id)`. -/
def getProductById (s : DBState) (product_id : Nat) : Option Product :=
  s.products.find? (fun p => p.id == product_id)

/-- `InventoryItem.query.filter_by(store_id=..., product_id=...).first()`. -/
def getInventoryItem : List InventoryItem → Nat → Nat → Option InventoryItem
  | [], _, _ => none
  | it :: rest, store_id, product_id =>
    if it.store_id = store_id ∧ it.product_id = product_id then some it
    else getInventoryItem rest store_id product_id

/-- Cached quantity of a (store, product) pair: the row's quantity, or 0
when the row is absent (the lazily-created row starts at 0). -/
def qtyItems (items : List InventoryItem) (store_id product_id : Nat) : Int :=
  match getInventoryItem items store_id product_id with
  | some it => it.quantity
  | none => 0

/-- Cached quantity in a full state. -/
def qtyOf (s : DBState) (store_id product_id : Nat) : Int :=
  qtyItems s.items store_id product_id

/-- Write `quantity := v, last_updated := now` on the row for
(store_id, product_id); when no row exists, `db.session.add` a fresh row
(with those values) at the end of the table. -/
def setQuantity : List InventoryItem → Nat → Nat → Int → Nat → List InventoryItem
  | [], store_id, product_id, v, now => [⟨store_id, product_id, v, now⟩]
  | it :: rest, store_id, product_id, v, now =>
    if it.store_id = store_id ∧ it.product_id = product_id then
      { it with quantity := v, last_updated := now } :: rest
    else it :: setQuantity rest store_id product_id v now

/-- `InventoryService.update_stock(store_id, product_id, delta, reason)`
(`inventory_service.py` lines 146-217). Returns the new state and the
new quantity on success; on any raised `ValueError` the committed state
is unchanged (the `except` clause rolls the session back). -/
def update_stock (s : DBState) (store_id product_id : Nat) (delta : Int)
    (reason : String) (user_id : Option Nat) (now : Nat) :
    Except String (DBState × Int) :=
  if delta = 0 then .error "Delta must be a non-zero integer"
  else
    match getStoreById s store_id with
    | none => .error ("Store with ID " ++ toString store_id ++ " not found")
    | some _ =>
      match getProductById s product_id with
      | none => .error ("Product with ID " ++ toString product_id ++ " not found")
      | some _ =>
        let current := qtyItems s.items store_id product_id
        let new_quantity := current + delta
        if new_quantity < 0 then
          .error ("Insufficient stock. Current: " ++ toString current ++
            ", Requested: " ++ toString delta.natAbs)
        else
          let tx : Transaction :=
            { product_id := product_id
              store_id := store_id
              type := if delta > 0 then TxType.IN else TxType.OUT
              quantity := (delta.natAbs : Int)
              timestamp := now
              note := Note.plain reason
              related_store_id := none
              user_id := user_id }
          .ok ({ s with
                  items := setQuantity s.items store_id product_id new_quantity now
                  transactions := s.transactions ++ [tx] },
               new_quantity)

/-- `InventoryService.transfer_stock(from_store_id, to_store_id,
product_id, quantity, reason)` (`inventory_service.py` lines 219-319).
Returns the new state and the pair (new source quantity, new destination
quantity) on success; on a raised `ValueError` the committed state is
unchanged. -/
def transfer_stock (s : DBState) (from_store_id to_store_id product_id : Nat)
    (quantity : Int) (reason : String) (user_id : Option Nat) (now : Nat) :
    Except String (DBState × Int × Int) :=
  if quantity ≤ 0 then .error "Transfer quantity must be positive"
  else if from_store_id = to_store_id then .error "Cannot transfer to the same store"
  else
    match getStoreById s from_store_id with
    | none => .error ("Source store with ID " ++ toString from_store_id ++ " not found")
    | some from_store =>
      match getStoreById s to_store_id with
      | none => .error ("Destination store with ID " ++ toString to_store_id ++ " not found")
      | some to_store =>
        match getProductById s product_id with
        | none => .error ("Product with ID " ++ toString product_id ++ " not found")
        | some _ =>
          match getInventoryItem s.items from_store_id product_id with
          | none =>
            .error ("Insufficient stock at source store. Current: 0, Requested: " ++
              toString quantity)
          | some from_inventory =>
            if from_inventory.quantity < quantity then
              .error ("Insufficient stock at source store. Current: " ++
                toString from_inventory.quantity ++ ", Requested: " ++ toString quantity)
            else
              let to_current := qtyItems s.items to_store_id product_id
              let items1 := setQuantity s.items from_store_id product_id
                (from_inventory.quantity - quantity) now
              let items2 := setQuantity items1 to_store_id product_id
                (to_current + quantity) now
              let out_transaction : Transaction :=
                { product_id := product_id
                  store_id := from_store_id
                  type := TxType.TRANSFER
                  quantity := quantity
                  timestamp := now
                  note := Note.transferOut to_store.name reason
                  related_store_id := some to_store_id
                  user_id := user_id }
              let in_transaction : Transaction :=
                { product_id := product_id
                  store_id := to_store_id
                  type := TxType.TRANSFER
                  quantity := quantity
                  timestamp := now
                  note := Note.transferIn from_store.name reason
                  related_store_id := some from_store_id
                  user_id := user_id }
              .ok ({ s with
                      items := items2
                      transactions := s.transactions ++ [out_transaction, in_transaction] },
                   (from_inventory.quantity - quantity, to_current + quantity))

/-- One mutating call of the ledger. -/
inductive Op where
  | update (store_id product_id : Nat) (delta : Int) (reason : String)
      (user_id : Option Nat) : Op
  | transfer (from_store_id to_store_id product_id : Nat) (quantity : Int)
      (reason : String) (user_id : Option Nat) : Op
deriving DecidableEq, Repr

/-- The committed state after one call, successful or failed: a failed
call commits nothing (rollback). -/
def step (s : DBState) : Op → Nat → DBState
  | .update store_id product_id delta reason user_id, now =>
    match update_stock s store_id product_id delta reason user_id now with
    | .ok (s', _) => s'
    | .error _ => s
  | .transfer f t product_id quantity reason user_id, now =>
    match transfer_stock s f t product_id quantity reason user_id now with
    | .ok (s', _) => s'
    | .error _ => s

/-- The committed state after a sequence of calls (each paired with its
call-time timestamp). -/
def run (s : DBState) (ops : List (Op × Nat)) : DBState :=
  ops.foldl (fun acc p => step acc p.1 p.2) s

/-! ### Ledger / transaction-log correspondence -/

/-- The signed contribution of one transaction row to the cached
quantity of (store_id, product_id): IN rows and the destination-side
TRANSFER row add their quantity, OUT rows and the source-side TRANSFER
row subtract it; rows of other pairs contribute nothing. In the
database the side of a TRANSFER row is recorded in its note's text
prefix, here in the `Note` constructor. -/
def Transaction.signedDelta (t : Transaction) (store_id product_id : Nat) : Int :=
  if t.store_id = store_id ∧ t.product_id = product_id then
    match t.type with
    | TxType.IN => t.quantity
    | TxType.OUT => -t.quantity
    | TxType.TRANSFER =>
      match t.note with
      | Note.transferIn _ _ => t.quantity
      | _ => -t.quantity
  else 0

/-- Signed sum of the whole transaction log against one pair. -/
def signedSum (txs : List Transaction) (store_id product_id : Nat) : Int :=
  (txs.map (fun t => t.signedDelta store_id product_id)).sum

/-- The ledger invariant: every pair's cached quantity (0 for an absent
row) equals the signed sum of the transactions recorded against it. -/
def LedgerInv (s : DBState) : Prop :=
  ∀ store_id product_id, qtyOf s store_id product_id =
    signedSum s.transactions store_id product_id

/-- Well-formedness of the `inventory_items` table: the unique
constraint on (store_id, product_id) — no later row repeats an earlier
row's key. -/
def wfItems : List InventoryItem → Prop
  | [] => True
  | it :: rest => getInventoryItem rest it.store_id it.product_id = none ∧ wfItems rest

instance instDecidableWfItems : (items : List InventoryItem) → Decidable (wfItems items)
  | [] => Decidable.isTrue trivial
  | _ :: rest =>
    have : Decidable (wfItems rest) := instDecidableWfItems rest
    instDecidableAnd

/-! ### Reporting engine -/

/-- Python truthiness of an optional integer: `None` and `0` are falsy.
The reporting code guards its optional store filter with `if store_id:`. -/
def truthy : Option Nat → Bool
  | none => false
  | some n => n != 0

/-- Whether a row with store id `sid` passes the optional store filter,
with the code's `if store_id:` truthiness guard: a filter of `None` or
`0` passes everything. -/
def storeFilterOk (store_id : Option Nat) (sid : Nat) : Bool :=
  if truthy store_id then sid == store_id.getD 0 else true

/-- One element of the list returned by `get_low_stock_items`. -/
structure LowStockEntry where
  item : InventoryItem
  product_name : String
  product_sku : String
  reorder_level : Int
  shortage : Int
deriving DecidableEq, Repr

/-- `InventoryService.get_low_stock_items(store_id=None)`
(`inventory_service.py` lines 321-351): join items with products, keep
rows with quantity ≤ reorder_level, optionally (truthily) filter by
store, and annotate each with `shortage = reorder_level - quantity`. -/
def get_low_stock_items (s : DBState) (store_id : Option Nat) : List LowStockEntry :=
  let joined := s.items.filterMap
    (fun it => (getProductById s it.product_id).map (fun p => (it, p)))
  let lowRows := joined.filter (fun ip => decide (ip.1.quantity ≤ ip.2.reorder_level))
  let filtered :=
    if truthy store_id then lowRows.filter (fun ip => ip.1.store_id == store_id.getD 0)
    else lowRows
  filtered.map (fun ip =>
    { item := ip.1
      product_name := ip.2.name
      product_sku := ip.2.sku
      reorder_level := ip.2.reorder_level
      shortage := ip.2.reorder_level - ip.1.quantity })

/-- The totals and transaction window of
`InventoryService.generate_stock_report(start_date, end_date, store_id)`
(`inventory_service.py` lines 371-435). `total_in` and
`total_transfers_in` keep the code's comparison `t.store_id == store_id`
against the optional filter itself: when the filter is `None` the
comparison is false for every row (`pyEqOpt`). -/
structure StockReport where
  total_in : Int
  total_out : Int
  total_transfers_in : Int
  total_transfers_out : Int
  net_change : Int
  transactions : List Transaction
deriving DecidableEq, Repr

/-- Python `n == store_id` where `store_id : Optional[int]`: comparison
with `None` is `False`. -/
def pyEqOpt (n : Nat) (o : Option Nat) : Bool :=
  match o with
  | none => false
  | some v => n == v

/-- `InventoryService.generate_stock_report`, totals part. -/
def generate_stock_report (s : DBState)
    (start_date end_date store_id : Option Nat) : StockReport :=
  let txs := s.transactions.filter (fun t =>
    (match start_date with | some d => decide (d ≤ t.timestamp) | none => true) &&
    (match end_date with | some d => decide (t.timestamp ≤ d) | none => true) &&
    storeFilterOk store_id t.store_id)
  let total_in := (txs.filter (fun t =>
    (t.type == TxType.IN || t.type == TxType.TRANSFER) &&
      pyEqOpt t.store_id store_id)).map (fun t => t.quantity) |>.sum
  let total_out := (txs.filter (fun t => t.type == TxType.OUT)).map
    (fun t => t.quantity) |>.sum
  let total_transfers_in := (txs.filter (fun t =>
    t.type == TxType.TRANSFER && pyEqOpt t.store_id store_id)).map
    (fun t => t.quantity) |>.sum
  let total_transfers_out := (txs.filter (fun t =>
    t.type == TxType.TRANSFER && truthy t.related_store_id)).map
    (fun t => t.quantity) |>.sum
  { total_in := total_in
    total_out := total_out
    total_transfers_in := total_transfers_in
    total_transfers_out := total_transfers_out
    net_change := total_in - total_out
    transactions := txs }

/-! ### Change feed polling endpoint -/

/-- One element of the `changes` list of the `/changes` endpoint. -/
structure Change where
  transaction : Transaction
  current_quantity : Int
deriving DecidableEq, Repr

/-- Descending-timestamp order used by `ORDER BY timestamp DESC`. -/
def txDescByTime (a b : Transaction) : Prop :=
  b.timestamp ≤ a.timestamp

instance : DecidableRel txDescByTime :=
  fun a b => inferInstanceAs (Decidable (b.timestamp ≤ a.timestamp))

instance : IsTotal Transaction txDescByTime :=
  ⟨fun a b => le_total b.timestamp a.timestamp⟩

instance : IsTrans Transaction txDescByTime :=
  ⟨fun _ _ _ hab hbc => le_trans hbc hab⟩

/-- `get_changes` (`api.py` lines 399-440): transactions strictly after
`since`, newest first, capped at 100, each joined with the pair's
current quantity (0 when the row is absent). -/
def get_changes (s : DBState) (since : Nat) : List Change :=
  let txs := ((s.transactions.filter (fun t => decide (since < t.timestamp))).insertionSort
    txDescByTime).take 100
  txs.map (fun t =>
    { transaction := t
      current_quantity := qtyItems s.items t.store_id t.product_id })

/-! ### Lemmas about the items table -/

theorem qtyItems_setQuantity (items : List InventoryItem) (sid pid : Nat) (v : Int)
    (now : Nat) (sid' pid' : Nat) :
    qtyItems (setQuantity items sid pid v now) sid' pid' =
      if sid' = sid ∧ pid' = pid then v else qtyItems items sid' pid' := by
  induction items with
  | nil =>
    simp only [setQuantity, qtyItems, getInventoryItem]
    by_cases h : sid' = sid ∧ pid' = pid
    · rw [if_pos ⟨h.1.symm, h.2.symm⟩, if_pos h]
    · rw [if_neg (fun hc => h ⟨hc.1.symm, hc.2.symm⟩), if_neg h]
  | cons it rest ih =>
    simp only [setQuantity]
    by_cases hhead : it.store_id = sid ∧ it.product_id = pid
    · rw [if_pos hhead]
      simp only [qtyItems, getInventoryItem]
      by_cases hq : it.store_id = sid' ∧ it.product_id = pid'
      · have hkey : sid' = sid ∧ pid' = pid :=
          ⟨hq.1.symm.trans hhead.1, hq.2.symm.trans hhead.2⟩
        rw [if_pos hq, if_pos hkey]
      · have hkey : ¬(sid' = sid ∧ pid' = pid) := fun hc =>
          hq ⟨hhead.1.trans hc.1.symm, hhead.2.trans hc.2.symm⟩
        rw [if_neg hq, if_neg hkey, if_neg hq]
    · rw [if_neg hhead]
      simp only [qtyItems, getInventoryItem] at ih ⊢
      by_cases hq : it.store_id = sid' ∧ it.product_id = pid'
      · have hkey : ¬(sid' = sid ∧ pid' = pid) := fun hc =>
          hhead ⟨hq.1.trans hc.1, hq.2.trans hc.2⟩
        rw [if_pos hq, if_neg hkey, if_pos hq]
      · rw [if_neg hq, ih, if_neg hq]

theorem getInventoryItem_setQuantity_ne (items : List InventoryItem) (sid pid : Nat)
    (v : Int) (now : Nat) (sid' pid' : Nat) (hne : ¬(sid' = sid ∧ pid' = pid)) :
    getInventoryItem (setQuantity items sid pid v now) sid' pid' =
      getInventoryItem items sid' pid' := by
  induction items with
  | nil =>
    simp only [setQuantity, getInventoryItem]
    rw [if_neg (fun hc => hne ⟨hc.1.symm, hc.2.symm⟩)]
  | cons it rest ih =>
    simp only [setQuantity]
    by_cases hhead : it.store_id = sid ∧ it.product_id = pid
    · rw [if_pos hhead]
      simp only [getInventoryItem]
      have hq : ¬(it.store_id = sid' ∧ it.product_id = pid') := fun hc =>
        hne ⟨hc.1.symm.trans hhead.1, hc.2.symm.trans hhead.2⟩
      rw [if_neg hq, if_neg hq]
    · rw [if_neg hhead]
      simp only [getInventoryItem]
      by_cases hq : it.store_id = sid' ∧ it.product_id = pid'
      · rw [if_pos hq, if_pos hq]
      · rw [if_neg hq, if_neg hq, ih]

theorem wfItems_setQuantity (items : List InventoryItem) (sid pid : Nat) (v : Int)
    (now : Nat) (hwf : wfItems items) :
    wfItems (setQuantity items sid pid v now) := by
  induction items with
  | nil =>
    simp [setQuantity, wfItems, getInventoryItem]
  | cons it rest ih =>
    obtain ⟨hnone, hrest⟩ := hwf
    simp only [setQuantity]
    by_cases hhead : it.store_id = sid ∧ it.product_id = pid
    · rw [if_pos hhead]
      exact ⟨hnone, hrest⟩
    · rw [if_neg hhead]
      refine ⟨?_, ih hrest⟩
      rw [getInventoryItem_setQuantity_ne rest sid pid v now it.store_id it.product_id hhead]
      exact hnone

theorem mem_setQuantity {it' : InventoryItem} (items : List InventoryItem)
    (sid pid : Nat) (v : Int) (now : Nat)
    (hmem : it' ∈ setQuantity items sid pid v now) :
    it' ∈ items ∨ it'.quantity = v := by
  induction items with
  | nil =>
    simp only [setQuantity, List.mem_singleton] at hmem
    exact Or.inr (by rw [hmem])
  | cons it rest ih =>
    simp only [setQuantity] at hmem
    by_cases hhead : it.store_id = sid ∧ it.product_id = pid
    · rw [if_pos hhead] at hmem
      rcases List.mem_cons.mp hmem with h | h
      · exact Or.inr (by rw [h])
      · exact Or.inl (List.mem_cons_of_mem it h)
    · rw [if_neg hhead] at hmem
      rcases List.mem_cons.mp hmem with h | h
      · exact Or.inl (h ▸ List.mem_cons_self it rest)
      · rcases ih h with h' | h'
        · exact Or.inl (List.mem_cons_of_mem it h')
        · exact Or.inr h'

theorem mem_of_getInventoryItem {items : List InventoryItem} {sid pid : Nat}
    {it : InventoryItem} (h : getInventoryItem items sid pid = some it) :
    it ∈ items := by
  induction items with
  | nil => exact absurd h (by simp [getInventoryItem])
  | cons hd rest ih =>
    simp only [getInventoryItem] at h
    by_cases hhead : hd.store_id = sid ∧ hd.product_id = pid
    · rw [if_pos hhead] at h
      exact (Option.some.injEq _ _ ▸ h) ▸ List.mem_cons_self hd rest
    · rw [if_neg hhead] at h
      exact List.mem_cons_of_mem hd (ih h)

theorem getInventoryItem_isSome_of_mem {items : List InventoryItem}
    {it : InventoryItem} (hmem : it ∈ items) :
    getInventoryItem items it.store_id it.product_id ≠ none := by
  induction items with
  | nil => exact absurd hmem (List.not_mem_nil it)
  | cons hd rest ih =>
    simp only [getInventoryItem]
    by_cases hhead : hd.store_id = it.store_id ∧ hd.product_id = it.product_id
    · rw [if_pos hhead]
      exact fun hc => Option.noConfusion hc
    · rw [if_neg hhead]
      rcases List.mem_cons.mp hmem with h | h
      · exact absurd ⟨congrArg InventoryItem.store_id h.symm,
          congrArg InventoryItem.product_id h.symm⟩ hhead
      · exact ih h

theorem quantity_eq_qtyItems_of_mem {items : List InventoryItem}
    {it : InventoryItem} (hwf : wfItems items) (hmem : it ∈ items) :
    it.quantity = qtyItems items it.store_id it.product_id := by
  induction items with
  | nil => exact absurd hmem (List.not_mem_nil it)
  | cons hd rest ih =>
    obtain ⟨hnone, hrest⟩ := hwf
    simp only [qtyItems, getInventoryItem]
    rcases List.mem_cons.mp hmem with h | h
    · subst h
      rw [if_pos ⟨rfl, rfl⟩]
    · by_cases hhead : hd.store_id = it.store_id ∧ hd.product_id = it.product_id
      · exact absurd (hhead.1 ▸ hhead.2 ▸ hnone)
          (getInventoryItem_isSome_of_mem h)
      · rw [if_neg hhead]
        exact ih hrest h

theorem nonneg_qtyItems {items : List InventoryItem}
    (h : ∀ it ∈ items, 0 ≤ it.quantity) (sid pid : Nat) :
    0 ≤ qtyItems items sid pid := by
  unfold qtyItems
  cases hfind : getInventoryItem items sid pid with
  | none => exact le_refl 0
  | some it => exact h it (mem_of_getInventoryItem hfind)

theorem signedSum_append (xs ys : List Transaction) (sid pid : Nat) :
    signedSum (xs ++ ys) sid pid = signedSum xs sid pid + signedSum ys sid pid := by
  simp [signedSum]

theorem signedSum_singleton (t : Transaction) (sid pid : Nat) :
    signedSum [t] sid pid = t.signedDelta sid pid := by
  simp [signedSum]

theorem signedSum_pair (t u : Transaction) (sid pid : Nat) :
    signedSum [t, u] sid pid = t.signedDelta sid pid + u.signedDelta sid pid := by
  simp [signedSum]

/-! ### Success and failure shapes of the two mutating operations -/

/-- The transaction row written by a successful `update_stock` call. -/
def updateTx (store_id product_id : Nat) (delta : Int) (reason : String)
    (user_id : Option Nat) (now : Nat) : Transaction :=
  { product_id := product_id
    store_id := store_id
    type := if delta > 0 then TxType.IN else TxType.OUT
    quantity := (delta.natAbs : Int)
    timestamp := now
    note := Note.plain reason
    related_store_id := none
    user_id := user_id }

/-- The source-side transaction row written by a successful
`transfer_stock` call. -/
def transferOutTx (from_store_id to_store_id product_id : Nat) (quantity : Int)
    (toName reason : String) (user_id : Option Nat) (now : Nat) : Transaction :=
  { product_id := product_id
    store_id := from_store_id
    type := TxType.TRANSFER
    quantity := quantity
    timestamp := now
    note := Note.transferOut toName reason
    related_store_id := some to_store_id
    user_id := user_id }

/-- The destination-side transaction row written by a successful
`transfer_stock` call. -/
def transferInTx (from_store_id to_store_id product_id : Nat) (quantity : Int)
    (fromName reason : String) (user_id : Option Nat) (now : Nat) : Transaction :=
  { product_id := product_id
    store_id := to_store_id
    type := TxType.TRANSFER
    quantity := quantity
    timestamp := now
    note := Note.transferIn fromName reason
    related_store_id := some from_store_id
    user_id := user_id }

theorem update_stock_ok_inv {s : DBState} {store_id product_id : Nat} {delta : Int}
    {reason : String} {user_id : Option Nat} {now : Nat} {s' : DBState} {r : Int}
    (h : update_stock s store_id product_id delta reason user_id now = .ok (s', r)) :
    delta ≠ 0 ∧ 0 ≤ qtyItems s.items store_id product_id + delta ∧
      r = qtyItems s.items store_id product_id + delta ∧
      s' = { s with
              items := setQuantity s.items store_id product_id
                (qtyItems s.items store_id product_id + delta) now
              transactions := s.transactions ++
                [updateTx store_id product_id delta reason user_id now] } := by
  simp only [update_stock, updateTx] at h ⊢
  split at h
  · exact Except.noConfusion h
  rename_i hdelta
  split at h
  · exact Except.noConfusion h
  split at h
  · exact Except.noConfusion h
  split at h
  · exact Except.noConfusion h
  rename_i hneg
  simp only [Except.ok.injEq, Prod.mk.injEq] at h
  exact ⟨hdelta, by omega, h.2.symm, h.1.symm⟩

theorem update_stock_eval (s : DBState) (store_id product_id : Nat) (delta : Int)
    (reason : String) (user_id : Option Nat) (now : Nat)
    (hdelta : delta ≠ 0)
    (hstore : (getStoreById s store_id).isSome = true)
    (hprod : (getProductById s product_id).isSome = true)
    (hq : 0 ≤ qtyItems s.items store_id product_id + delta) :
    update_stock s store_id product_id delta reason user_id now =
      .ok ({ s with
              items := setQuantity s.items store_id product_id
                (qtyItems s.items store_id product_id + delta) now
              transactions := s.transactions ++
                [updateTx store_id product_id delta reason user_id now] },
           qtyItems s.items store_id product_id + delta) := by
  have hq' : ¬(qtyItems s.items store_id product_id + delta < 0) := not_lt.mpr hq
  cases hst : getStoreById s store_id with
  | none => rw [hst] at hstore; exact absurd hstore (by simp)
  | some st =>
    cases hp : getProductById s product_id with
    | none => rw [hp] at hprod; exact absurd hprod (by simp)
    | some p =>
      simp only [update_stock, updateTx, hst, hp, hdelta, hq', if_false, ite_false]

theorem transfer_stock_ok_inv {s : DBState} {f t product_id : Nat} {q : Int}
    {reason : String} {user_id : Option Nat} {now : Nat} {s' : DBState} {r : Int × Int}
    (h : transfer_stock s f t product_id q reason user_id now = .ok (s', r)) :
    0 < q ∧ f ≠ t ∧ q ≤ qtyItems s.items f product_id ∧
      ∃ from_store to_store,
        getStoreById s f = some from_store ∧ getStoreById s t = some to_store ∧
        r = (qtyItems s.items f product_id - q, qtyItems s.items t product_id + q) ∧
        s' = { s with
                items := setQuantity
                    (setQuantity s.items f product_id
                      (qtyItems s.items f product_id - q) now)
                    t product_id (qtyItems s.items t product_id + q) now
                transactions := s.transactions ++
                  [transferOutTx f t product_id q to_store.name reason user_id now,
                   transferInTx f t product_id q from_store.name reason user_id now] } := by
  simp only [transfer_stock, transferOutTx, transferInTx] at h ⊢
  split at h
  · exact Except.noConfusion h
  rename_i hqpos
  split at h
  · exact Except.noConfusion h
  rename_i hft
  split at h
  · exact Except.noConfusion h
  rename_i from_store hfrom
  split at h
  · exact Except.noConfusion h
  rename_i to_store hto
  split at h
  · exact Except.noConfusion h
  split at h
  · exact Except.noConfusion h
  rename_i from_inventory hfi
  split at h
  · exact Except.noConfusion h
  rename_i henough
  simp only [Except.ok.injEq, Prod.mk.injEq] at h
  have hfq : qtyItems s.items f product_id = from_inventory.quantity := by
    simp [qtyItems, hfi]
  refine ⟨by omega, hft, by omega, from_store, to_store, hfrom, hto, ?_, ?_⟩
  · rw [hfq]; exact h.2.symm
  · rw [hfq]; exact h.1.symm

theorem transfer_stock_eval (s : DBState) (f t product_id : Nat) (q : Int)
    (reason : String) (user_id : Option Nat) (now : Nat)
    {from_store to_store : Store}
    (hqpos : 0 < q) (hft : f ≠ t)
    (hfrom : getStoreById s f = some from_store)
    (hto : getStoreById s t = some to_store)
    (hprod : (getProductById s product_id).isSome = true)
    (henough : q ≤ qtyItems s.items f product_id) :
    transfer_stock s f t product_id q reason user_id now =
      .ok ({ s with
              items := setQuantity
                  (setQuantity s.items f product_id
                    (qtyItems s.items f product_id - q) now)
                  t product_id (qtyItems s.items t product_id + q) now
              transactions := s.transactions ++
                [transferOutTx f t product_id q to_store.name reason user_id now,
                 transferInTx f t product_id q from_store.name reason user_id now] },
           (qtyItems s.items f product_id - q, qtyItems s.items t product_id + q)) := by
  have hq' : ¬(q ≤ 0) := not_le.mpr hqpos
  cases hfi : getInventoryItem s.items f product_id with
  | none =>
    exact absurd henough (by simp [qtyItems, hfi]; omega)
  | some from_inventory =>
    have hfq : qtyItems s.items f product_id = from_inventory.quantity := by
      simp [qtyItems, hfi]
    have henough' : ¬(from_inventory.quantity < q) := not_lt.mpr (hfq ▸ henough)
    cases hp : getProductById s product_id with
    | none => rw [hp] at hprod; exact absurd hprod (by simp)
    | some p =>
      simp only [transfer_stock, transferOutTx, transferInTx, hfrom, hto, hp, hfi,
        hq', hft, henough', if_false, ite_false, hfq]

/-! ### Signed contributions of the written rows -/

theorem signedDelta_updateTx (store_id product_id : Nat) (delta : Int) (reason : String)
    (user_id : Option Nat) (now : Nat) (sid pid : Nat) :
    (updateTx store_id product_id delta reason user_id now).signedDelta sid pid =
      if sid = store_id ∧ pid = product_id then delta else 0 := by
  simp only [updateTx, Transaction.signedDelta]
  by_cases hkey : sid = store_id ∧ pid = product_id
  · rw [if_pos ⟨hkey.1.symm, hkey.2.symm⟩, if_pos hkey]
    by_cases hpos : delta > 0 <;> simp only [hpos, ite_true, ite_false] <;> omega
  · rw [if_neg (fun hc => hkey ⟨hc.1.symm, hc.2.symm⟩), if_neg hkey]

theorem signedDelta_transferOutTx (f t product_id : Nat) (q : Int)
    (toName reason : String) (user_id : Option Nat) (now : Nat) (sid pid : Nat) :
    (transferOutTx f t product_id q toName reason user_id now).signedDelta sid pid =
      if sid = f ∧ pid = product_id then -q else 0 := by
  simp only [transferOutTx, Transaction.signedDelta]
  by_cases hkey : sid = f ∧ pid = product_id
  · rw [if_pos ⟨hkey.1.symm, hkey.2.symm⟩, if_pos hkey]
  · rw [if_neg (fun hc => hkey ⟨hc.1.symm, hc.2.symm⟩), if_neg hkey]

theorem signedDelta_transferInTx (f t product_id : Nat) (q : Int)
    (fromName reason : String) (user_id : Option Nat) (now : Nat) (sid pid : Nat) :
    (transferInTx f t product_id q fromName reason user_id now).signedDelta sid pid =
      if sid = t ∧ pid = product_id then q else 0 := by
  simp only [transferInTx, Transaction.signedDelta]
  by_cases hkey : sid = t ∧ pid = product_id
  · rw [if_pos ⟨hkey.1.symm, hkey.2.symm⟩, if_pos hkey]
  · rw [if_neg (fun hc => hkey ⟨hc.1.symm, hc.2.symm⟩), if_neg hkey]

/-! ### Preservation of the invariants by one call -/

theorem step_LedgerInv {s : DBState} (hinv : LedgerInv s) (op : Op) (now : Nat) :
    LedgerInv (step s op now) := by
  cases op with
  | update store_id product_id delta reason user_id =>
    simp only [step]
    cases hres : update_stock s store_id product_id delta reason user_id now with
    | error e => exact hinv
    | ok pr =>
      obtain ⟨s', r⟩ := pr
      obtain ⟨hdelta, hq, hr, hs'⟩ := update_stock_ok_inv hres
      subst hs'
      intro sid pid
      have hbase := hinv sid pid
      simp only [qtyOf] at hbase ⊢
      rw [qtyItems_setQuantity, signedSum_append, signedSum_singleton,
        signedDelta_updateTx store_id product_id delta reason user_id now]
      by_cases hkey : sid = store_id ∧ pid = product_id
      · rw [if_pos hkey, if_pos hkey, ← hkey.1, ← hkey.2, hbase]
      · rw [if_neg hkey, if_neg hkey, hbase, add_zero]
  | transfer f t product_id q reason user_id =>
    simp only [step]
    cases hres : transfer_stock s f t product_id q reason user_id now with
    | error e => exact hinv
    | ok pr =>
      obtain ⟨s', r⟩ := pr
      obtain ⟨hqpos, hft, henough, from_store, to_store, hfrom, hto, hr, hs'⟩ :=
        transfer_stock_ok_inv hres
      subst hs'
      intro sid pid
      have hbase := hinv sid pid
      simp only [qtyOf] at hbase ⊢
      rw [qtyItems_setQuantity, qtyItems_setQuantity, signedSum_append, signedSum_pair,
        signedDelta_transferOutTx, signedDelta_transferInTx]
      by_cases hkeyt : sid = t ∧ pid = product_id
      · have hsf : ¬(sid = f ∧ pid = product_id) := fun hc =>
          hft (hc.1.symm.trans hkeyt.1)
        rw [if_pos hkeyt, if_neg hsf, if_pos hkeyt, ← hkeyt.1, ← hkeyt.2, hbase]
        ring
      · rw [if_neg hkeyt, if_neg hkeyt]
        by_cases hkeyf : sid = f ∧ pid = product_id
        · rw [if_pos hkeyf, if_pos hkeyf, ← hkeyf.1, ← hkeyf.2, hbase]
          ring
        · rw [if_neg hkeyf, if_neg hkeyf, hbase]
          ring

theorem step_wfItems {s : DBState} (hwf : wfItems s.items) (op : Op) (now : Nat) :
    wfItems (step s op now).items := by
  cases op with
  | update store_id product_id delta reason user_id =>
    simp only [step]
    cases hres : update_stock s store_id product_id delta reason user_id now with
    | error e => exact hwf
    | ok pr =>
      obtain ⟨s', r⟩ := pr
      obtain ⟨_, _, _, hs'⟩ := update_stock_ok_inv hres
      subst hs'
      exact wfItems_setQuantity _ _ _ _ _ hwf
  | transfer f t product_id q reason user_id =>
    simp only [step]
    cases hres : transfer_stock s f t product_id q reason user_id now with
    | error e => exact hwf
    | ok pr =>
      obtain ⟨s', r⟩ := pr
      obtain ⟨_, _, _, from_store, to_store, _, _, _, hs'⟩ := transfer_stock_ok_inv hres
      subst hs'
      exact wfItems_setQuantity _ _ _ _ _ (wfItems_setQuantity _ _ _ _ _ hwf)

theorem step_nonneg {s : DBState} (h : ∀ it ∈ s.items, 0 ≤ it.quantity)
    (op : Op) (now : Nat) :
    ∀ it ∈ (step s op now).items, 0 ≤ it.quantity := by
  cases op with
  | update store_id product_id delta reason user_id =>
    simp only [step]
    cases hres : update_stock s store_id product_id delta reason user_id now with
    | error e => exact h
    | ok pr =>
      obtain ⟨s', r⟩ := pr
      obtain ⟨_, hq, _, hs'⟩ := update_stock_ok_inv hres
      subst hs'
      intro it hit
      rcases mem_setQuantity _ _ _ _ _ hit with hmem | hval
      · exact h it hmem
      · rw [hval]; exact hq
  | transfer f t product_id q reason user_id =>
    simp only [step]
    cases hres : transfer_stock s f t product_id q reason user_id now with
    | error e => exact h
    | ok pr =>
      obtain ⟨s', r⟩ := pr
      obtain ⟨hqpos, _, henough, from_store, to_store, _, _, _, hs'⟩ :=
        transfer_stock_ok_inv hres
      subst hs'
      intro it hit
      rcases mem_setQuantity _ _ _ _ _ hit with hit1 | hval
      · rcases mem_setQuantity _ _ _ _ _ hit1 with hmem | hval
        · exact h it hmem
        · rw [hval]; omega
      · rw [hval]
        have := nonneg_qtyItems h t product_id
        omega

theorem run_cons (s : DBState) (p : Op × Nat) (rest : List (Op × Nat)) :
    run s (p :: rest) = run (step s p.1 p.2) rest := rfl

theorem run_LedgerInv {s : DBState} (ops : List (Op × Nat)) (hinv : LedgerInv s) :
    LedgerInv (run s ops) := by
  induction ops generalizing s with
  | nil => exact hinv
  | cons p rest ih => exact ih (step_LedgerInv hinv p.1 p.2)

theorem run_wfItems {s : DBState} (ops : List (Op × Nat)) (hwf : wfItems s.items) :
    wfItems (run s ops).items := by
  induction ops generalizing s with
  | nil => exact hwf
  | cons p rest ih => exact ih (step_wfItems hwf p.1 p.2)

theorem run_nonneg {s : DBState} (ops : List (Op × Nat))
    (h : ∀ it ∈ s.items, 0 ≤ it.quantity) :
    ∀ it ∈ (run s ops).items, 0 ≤ it.quantity := by
  induction ops generalizing s with
  | nil => exact h
  | cons p rest ih => exact ih (step_nonneg h p.1 p.2)

/-! ### Concrete states used to exercise the theorems -/

/-- Two stores and one product, empty ledger. -/
def wBase : DBState :=
  { stores := [⟨1, "Downtown", "Main St"⟩, ⟨2, "Uptown", "High St"⟩]
    products := [⟨1, "SKU-1", "Widget", "general", 10⟩]
    items := []
    transactions := [] }

/-- A mixed call sequence: restock, sale, transfer, then a failing
oversell and a failing same-store transfer. -/
def wOps : List (Op × Nat) :=
  [(Op.update 1 1 12 "restock" (some 7), 1),
   (Op.update 1 1 (-5) "sale" (some 7), 2),
   (Op.transfer 1 2 1 5 "rebalance" (some 7), 3),
   (Op.update 1 1 (-99) "oversell" none, 4),
   (Op.transfer 1 1 1 3 "same store" none, 5)]

/-- Two stores, one product, store 1 holding 12 units. -/
def wTwelve : DBState :=
  { stores := [⟨1, "Downtown", "Main St"⟩, ⟨2, "Uptown", "High St"⟩]
    products := [⟨1, "SKU-1", "Widget", "general", 10⟩]
    items := [⟨1, 1, 12, 0⟩]
    transactions := [] }

/-! ### Claims -/

/-- C1: starting from any state satisfying the ledger invariant (every
(store, product) pair's cached quantity — 0 for an absent row — equals
the signed sum of the Transactions recorded against it, IN and
received-transfer rows adding, OUT and sent-transfer rows subtracting)
and the items table's unique-key constraint, every sequence of
`update_stock` / `transfer_stock` calls, successful or failed,
preserves the invariant; in particular every InventoryItem's quantity
equals the signed transaction sum of its pair. -/
theorem ledger_matches_transaction_log (s : DBState) (ops : List (Op × Nat))
    (hwf : wfItems s.items) (hinv : LedgerInv s) :
    LedgerInv (run s ops) ∧
      ∀ it ∈ (run s ops).items,
        it.quantity = signedSum (run s ops).transactions it.store_id it.product_id := by
  refine ⟨run_LedgerInv ops hinv, fun it hit => ?_⟩
  have h1 := quantity_eq_qtyItems_of_mem (run_wfItems ops hwf) hit
  have h2 := run_LedgerInv ops hinv it.store_id it.product_id
  exact h1.trans h2

/-- Witness for C1 at a concrete state and call sequence. -/
theorem ledger_matches_transaction_log_witness :
    qtyOf (run wBase wOps) 1 1 = signedSum (run wBase wOps).transactions 1 1 :=
  (ledger_matches_transaction_log wBase wOps trivial (fun _ _ => rfl)).1 1 1

/-- C2: from a state where every InventoryItem quantity is non-negative,
every sequence of `update_stock` / `transfer_stock` calls, successful or
failed, leaves every InventoryItem quantity (and every pair's cached
quantity) non-negative. -/
theorem quantities_never_negative (s : DBState) (ops : List (Op × Nat))
    (h : ∀ it ∈ s.items, 0 ≤ it.quantity) :
    (∀ it ∈ (run s ops).items, 0 ≤ it.quantity) ∧
      ∀ sid pid, 0 ≤ qtyOf (run s ops) sid pid :=
  ⟨run_nonneg ops h, fun sid pid => nonneg_qtyItems (run_nonneg ops h) sid pid⟩

/-- Witness for C2 at a concrete state and call sequence. -/
theorem quantities_never_negative_witness : 0 ≤ qtyOf (run wBase wOps) 1 1 :=
  (quantities_never_negative wBase wOps (by simp [wBase])).2 1 1

/-- C3: when the store and product exist, `delta` is a non-zero integer
and the current quantity plus `delta` is non-negative, `update_stock`
succeeds: it writes `current + delta` on the pair's row (created at 0
first when absent — the write is `setQuantity`, which appends a fresh
row holding the new value when none exists), returns the new quantity,
and appends exactly one Transaction of type IN for `delta > 0` and OUT
for `delta < 0` with quantity field `|delta|`. -/
theorem update_stock_spec (s : DBState) (store_id product_id : Nat) (delta : Int)
    (reason : String) (user_id : Option Nat) (now : Nat)
    (hstore : (getStoreById s store_id).isSome = true)
    (hprod : (getProductById s product_id).isSome = true)
    (hdelta : delta ≠ 0)
    (hq : 0 ≤ qtyOf s store_id product_id + delta) :
    update_stock s store_id product_id delta reason user_id now =
      .ok ({ s with
              items := setQuantity s.items store_id product_id
                (qtyOf s store_id product_id + delta) now
              transactions := s.transactions ++
                [{ product_id := product_id
                   store_id := store_id
                   type := if delta > 0 then TxType.IN else TxType.OUT
                   quantity := (delta.natAbs : Int)
                   timestamp := now
                   note := Note.plain reason
                   related_store_id := none
                   user_id := user_id }] },
           qtyOf s store_id product_id + delta) ∧
      qtyItems (setQuantity s.items store_id product_id
          (qtyOf s store_id product_id + delta) now) store_id product_id =
        qtyOf s store_id product_id + delta := by
  refine ⟨update_stock_eval s store_id product_id delta reason user_id now
    hdelta hstore hprod hq, ?_⟩
  rw [qtyItems_setQuantity, if_pos ⟨rfl, rfl⟩]

/-- Witness for C3: the spec's example — store 1 holds 12 units,
adjust by -5 gives 7 and one OUT transaction of quantity 5. -/
theorem update_stock_spec_witness :
    update_stock wTwelve 1 1 (-5) "sale" (some 7) 9 =
      .ok ({ wTwelve with
              items := setQuantity wTwelve.items 1 1 (qtyOf wTwelve 1 1 + (-5)) 9
              transactions := wTwelve.transactions ++
                [{ product_id := 1
                   store_id := 1
                   type := if (-5 : Int) > 0 then TxType.IN else TxType.OUT
                   quantity := ((-5 : Int).natAbs : Int)
                   timestamp := 9
                   note := Note.plain "sale"
                   related_store_id := none
                   user_id := some 7 }] },
           qtyOf wTwelve 1 1 + (-5)) ∧
      qtyItems (setQuantity wTwelve.items 1 1 (qtyOf wTwelve 1 1 + (-5)) 9) 1 1 =
        qtyOf wTwelve 1 1 + (-5) :=
  update_stock_spec wTwelve 1 1 (-5) "sale" (some 7) 9 rfl rfl (by decide) (by decide)

/-- C4: when the store and product exist, `delta` is non-zero, and the
current quantity plus `delta` is negative, `update_stock` fails with an
insufficient-stock error reporting the current quantity, and the
committed state — items and transaction log — is exactly the pre-call
state. -/
theorem update_stock_insufficient (s : DBState) (store_id product_id : Nat)
    (delta : Int) (reason : String) (user_id : Option Nat) (now : Nat)
    (hstore : (getStoreById s store_id).isSome = true)
    (hprod : (getProductById s product_id).isSome = true)
    (hdelta : delta ≠ 0)
    (hq : qtyOf s store_id product_id + delta < 0) :
    update_stock s store_id product_id delta reason user_id now =
      .error ("Insufficient stock. Current: " ++ toString (qtyOf s store_id product_id) ++
        ", Requested: " ++ toString delta.natAbs) ∧
    step s (Op.update store_id product_id delta reason user_id) now = s := by
  have herr : update_stock s store_id product_id delta reason user_id now =
      .error ("Insufficient stock. Current: " ++ toString (qtyOf s store_id product_id) ++
        ", Requested: " ++ toString delta.natAbs) := by
    cases hst : getStoreById s store_id with
    | none => rw [hst] at hstore; exact absurd hstore (by simp)
    | some st =>
      cases hp : getProductById s product_id with
      | none => rw [hp] at hprod; exact absurd hprod (by simp)
      | some p =>
        have hq' : qtyItems s.items store_id product_id + delta < 0 := hq
        simp only [update_stock, hst, hp, hdelta, hq', ite_true, ite_false, if_false]
        rfl
  exact ⟨herr, by simp only [step, herr]⟩

/-- Witness for C4: overselling 99 units from a stock of 12 fails and
leaves the state untouched. -/
theorem update_stock_insufficient_witness :
    update_stock wTwelve 1 1 (-99) "oversell" none 9 =
      .error ("Insufficient stock. Current: " ++ toString (qtyOf wTwelve 1 1) ++
        ", Requested: " ++ toString (-99 : Int).natAbs) ∧
    step wTwelve (Op.update 1 1 (-99) "oversell" none) 9 = wTwelve :=
  update_stock_insufficient wTwelve 1 1 (-99) "oversell" none 9 rfl rfl
    (by decide) (by decide)

/-- C5: for distinct existing stores, an existing product, and a
positive quantity not exceeding the source row's quantity,
`transfer_stock` succeeds: the source row loses `q`, the destination
row (created at 0 first when absent) gains `q`, and exactly two
TRANSFER transactions are appended, both stamped with the call's one
timestamp `now`, each with quantity field `q`: the source-side row
(`transferOutTx`) at the source store with `related_store_id` = the
destination, the destination-side row (`transferInTx`) at the
destination store with `related_store_id` = the source. -/
theorem transfer_stock_spec (s : DBState) (f t product_id : Nat) (q : Int)
    (reason : String) (user_id : Option Nat) (now : Nat) (from_store to_store : Store)
    (hfrom : getStoreById s f = some from_store)
    (hto : getStoreById s t = some to_store)
    (hprod : (getProductById s product_id).isSome = true)
    (hft : f ≠ t) (hqpos : 0 < q) (henough : q ≤ qtyOf s f product_id) :
    transfer_stock s f t product_id q reason user_id now =
      .ok ({ s with
              items := setQuantity
                  (setQuantity s.items f product_id (qtyOf s f product_id - q) now)
                  t product_id (qtyOf s t product_id + q) now
              transactions := s.transactions ++
                [transferOutTx f t product_id q to_store.name reason user_id now,
                 transferInTx f t product_id q from_store.name reason user_id now] },
           (qtyOf s f product_id - q, qtyOf s t product_id + q)) ∧
      qtyItems (setQuantity
          (setQuantity s.items f product_id (qtyOf s f product_id - q) now)
          t product_id (qtyOf s t product_id + q) now) f product_id =
        qtyOf s f product_id - q ∧
      qtyItems (setQuantity
          (setQuantity s.items f product_id (qtyOf s f product_id - q) now)
          t product_id (qtyOf s t product_id + q) now) t product_id =
        qtyOf s t product_id + q := by
  refine ⟨transfer_stock_eval s f t product_id q reason user_id now hqpos hft
    hfrom hto hprod henough, ?_, ?_⟩
  · rw [qtyItems_setQuantity,
      if_neg (fun hc : f = t ∧ product_id = product_id => hft hc.1),
      qtyItems_setQuantity, if_pos ⟨rfl, rfl⟩]
  · rw [qtyItems_setQuantity, if_pos ⟨rfl, rfl⟩]

/-- Witness for C5: transferring 5 of the 12 units at store 1 to the
(absent) row at store 2. -/
theorem transfer_stock_spec_witness :
    transfer_stock wTwelve 1 2 1 5 "rebalance" (some 7) 9 =
      .ok ({ wTwelve with
              items := setQuantity
                  (setQuantity wTwelve.items 1 1 (qtyOf wTwelve 1 1 - 5) 9)
                  2 1 (qtyOf wTwelve 2 1 + 5) 9
              transactions := wTwelve.transactions ++
                [transferOutTx 1 2 1 5 "Uptown" "rebalance" (some 7) 9,
                 transferInTx 1 2 1 5 "Downtown" "rebalance" (some 7) 9] },
           (qtyOf wTwelve 1 1 - 5, qtyOf wTwelve 2 1 + 5)) ∧
      qtyItems (setQuantity
          (setQuantity wTwelve.items 1 1 (qtyOf wTwelve 1 1 - 5) 9)
          2 1 (qtyOf wTwelve 2 1 + 5) 9) 1 1 = qtyOf wTwelve 1 1 - 5 ∧
      qtyItems (setQuantity
          (setQuantity wTwelve.items 1 1 (qtyOf wTwelve 1 1 - 5) 9)
          2 1 (qtyOf wTwelve 2 1 + 5) 9) 2 1 = qtyOf wTwelve 2 1 + 5 :=
  transfer_stock_spec wTwelve 1 2 1 5 "rebalance" (some 7) 9
    ⟨1, "Downtown", "Main St"⟩ ⟨2, "Uptown", "High St"⟩
    rfl rfl rfl (by decide) (by decide) (by decide)

/-- C6: `transfer_stock` called with a non-positive quantity or equal
source and destination stores fails — with the invalid-argument
message for the violated precondition — and commits nothing: the
post-call state is the pre-call state. -/
theorem transfer_stock_invalid (s : DBState) (f t product_id : Nat) (q : Int)
    (reason : String) (user_id : Option Nat) (now : Nat)
    (h : q ≤ 0 ∨ f = t) :
    (transfer_stock s f t product_id q reason user_id now =
        .error "Transfer quantity must be positive" ∨
      transfer_stock s f t product_id q reason user_id now =
        .error "Cannot transfer to the same store") ∧
      step s (Op.transfer f t product_id q reason user_id) now = s := by
  by_cases hq : q ≤ 0
  · have herr : transfer_stock s f t product_id q reason user_id now =
        .error "Transfer quantity must be positive" := by
      simp only [transfer_stock, hq, ite_true]
    exact ⟨Or.inl herr, by simp only [step, herr]⟩
  · have hft : f = t := by
      rcases h with h' | h'
      · exact absurd h' hq
      · exact h'
    have herr : transfer_stock s f t product_id q reason user_id now =
        .error "Cannot transfer to the same store" := by
      simp [transfer_stock, hq, hft]
    exact ⟨Or.inr herr, by simp only [step, herr]⟩

/-- Witness for C6: a same-store transfer of a positive quantity fails
and writes nothing. -/
theorem transfer_stock_invalid_witness :
    (transfer_stock wTwelve 1 1 1 3 "same store" none 9 =
        .error "Transfer quantity must be positive" ∨
      transfer_stock wTwelve 1 1 1 3 "same store" none 9 =
        .error "Cannot transfer to the same store") ∧
      step wTwelve (Op.transfer 1 1 1 3 "same store" none) 9 = wTwelve :=
  transfer_stock_invalid wTwelve 1 1 1 3 "same store" none 9 (Or.inr rfl)

/-- C10: when the (store, product) pair has no InventoryItem row and an
`update_stock` call on it fails with any error, the pair still has no
row afterwards: the lazily created zero row is discarded with the
rollback, and the whole state is the pre-call state. -/
theorem update_stock_rollback_discards_row (s : DBState) (store_id product_id : Nat)
    (delta : Int) (reason : String) (user_id : Option Nat) (now : Nat) (e : String)
    (habsent : getInventoryItem s.items store_id product_id = none)
    (herr : update_stock s store_id product_id delta reason user_id now = .error e) :
    getInventoryItem
        (step s (Op.update store_id product_id delta reason user_id) now).items
        store_id product_id = none ∧
      step s (Op.update store_id product_id delta reason user_id) now = s := by
  have hstep : step s (Op.update store_id product_id delta reason user_id) now = s := by
    simp only [step, herr]
  exact ⟨by rw [hstep]; exact habsent, hstep⟩

/-- Witness for C10: a failing negative adjustment on an absent pair
leaves the pair absent. -/
theorem update_stock_rollback_discards_row_witness :
    getInventoryItem (step wBase (Op.update 1 1 (-1) "sale" none) 9).items 1 1 = none ∧
      step wBase (Op.update 1 1 (-1) "sale" none) 9 = wBase :=
  update_stock_rollback_discards_row wBase 1 1 (-1) "sale" none 9
    ("Insufficient stock. Current: 0, Requested: 1") rfl rfl

/-- Membership characterization of `get_low_stock_items`: the returned
entries are exactly the item-product joins with quantity at most the
reorder level that pass the (truthy) store filter, each annotated with
its shortage. -/
theorem mem_get_low_stock_items (s : DBState) (store_id : Option Nat)
    (e : LowStockEntry) :
    e ∈ get_low_stock_items s store_id ↔
      ∃ it p, it ∈ s.items ∧ getProductById s it.product_id = some p ∧
        it.quantity ≤ p.reorder_level ∧ storeFilterOk store_id it.store_id = true ∧
        e = ⟨it, p.name, p.sku, p.reorder_level, p.reorder_level - it.quantity⟩ := by
  unfold get_low_stock_items storeFilterOk
  by_cases htr : truthy store_id
  · simp only [htr, ite_true, List.mem_map, List.mem_filter, List.mem_filterMap,
      Option.map_eq_some', decide_eq_true_eq]
    constructor
    · rintro ⟨⟨it, p⟩, ⟨⟨⟨it', hit', p', hp', hpair⟩, hlow⟩, hq⟩, rfl⟩
      injection hpair with h1 h2
      subst h1
      subst h2
      exact ⟨_, _, hit', hp', hlow, hq, rfl⟩
    · rintro ⟨it, p, hit, hp, hlow, hq, rfl⟩
      exact ⟨(it, p), ⟨⟨⟨it, hit, p, hp, rfl⟩, hlow⟩, hq⟩, rfl⟩
  · simp only [Bool.not_eq_true] at htr
    simp only [htr, Bool.false_eq_true, ite_false, List.mem_map, List.mem_filter,
      List.mem_filterMap, Option.map_eq_some', decide_eq_true_eq]
    constructor
    · rintro ⟨⟨it, p⟩, ⟨⟨it', hit', p', hp', hpair⟩, hlow⟩, rfl⟩
      injection hpair with h1 h2
      subst h1
      subst h2
      exact ⟨_, _, hit', hp', hlow, trivial, rfl⟩
    · rintro ⟨it, p, hit, hp, hlow, hsf, rfl⟩
      exact ⟨(it, p), ⟨⟨it, hit, p, hp, rfl⟩, hlow⟩, rfl⟩

/-- One store, one product with reorder level 10, and a low-stock row
of 2 units at store 1. -/
def wLow : DBState :=
  { stores := [⟨1, "Downtown", "Main St"⟩]
    products := [⟨1, "SKU-1", "Widget", "general", 10⟩]
    items := [⟨1, 1, 2, 0⟩]
    transactions := [] }

/-- C7 counterexample: called with store filter `some 0`, the code's
`if store_id:` truthiness guard skips the store filter (0 is falsy in
Python), so a low-stock row of store 1 is returned even though the
claim demands only rows of the given store 0. -/
theorem get_low_stock_items_filter_zero_counterexample :
    ¬ (∀ e ∈ get_low_stock_items wLow (some 0), e.item.store_id = 0) := by decide

/-- C7 (amended): `get_low_stock_items` returns exactly the
InventoryItem rows (joined to their products) whose quantity is at most
the product's reorder level — restricted to the given store when a
NON-ZERO store id is supplied (a filter of 0, being falsy in Python, is
treated as no filter, as is `None`) — each annotated with
shortage = reorder_level - quantity, which is always non-negative. -/
theorem get_low_stock_items_spec (s : DBState) (store_id : Option Nat)
    (e : LowStockEntry) :
    (e ∈ get_low_stock_items s store_id ↔
      ∃ it p, it ∈ s.items ∧ getProductById s it.product_id = some p ∧
        it.quantity ≤ p.reorder_level ∧ storeFilterOk store_id it.store_id = true ∧
        e = ⟨it, p.name, p.sku, p.reorder_level, p.reorder_level - it.quantity⟩) ∧
    (e ∈ get_low_stock_items s store_id →
      e.shortage = e.reorder_level - e.item.quantity ∧ 0 ≤ e.shortage ∧
        e.item.quantity ≤ e.reorder_level) := by
  refine ⟨mem_get_low_stock_items s store_id e, fun hmem => ?_⟩
  obtain ⟨it, p, hit, hp, hlow, hsf, he⟩ := (mem_get_low_stock_items s store_id e).mp hmem
  subst he
  refine ⟨rfl, ?_, hlow⟩
  show (0 : Int) ≤ p.reorder_level - it.quantity
  omega

/-- Witness for C7: the shortage-8 entry for the 2-unit row is returned
by an unfiltered query. -/
theorem get_low_stock_items_spec_witness :
    (⟨⟨1, 1, 2, 0⟩, "Widget", "SKU-1", 10, 8⟩ : LowStockEntry) ∈
      get_low_stock_items wLow none :=
  ((get_low_stock_items_spec wLow none
      ⟨⟨1, 1, 2, 0⟩, "Widget", "SKU-1", 10, 8⟩).1).mpr
    ⟨⟨1, 1, 2, 0⟩, ⟨1, "SKU-1", "Widget", "general", 10⟩,
      by decide, rfl, by decide, rfl, by decide⟩

/-- C8: the polling endpoint returns only transactions with timestamp
strictly greater than `since`, sorted newest first, and at most 100 of
them; it never returns a transaction with timestamp at or before
`since`. -/
theorem get_changes_spec (s : DBState) (since : Nat) :
    (∀ c ∈ get_changes s since, since < c.transaction.timestamp) ∧
      (get_changes s since).length ≤ 100 ∧
      List.Pairwise
        (fun a b : Change => b.transaction.timestamp ≤ a.transaction.timestamp)
        (get_changes s since) := by
  unfold get_changes
  refine ⟨?_, ?_, ?_⟩
  · intro c hc
    simp only [List.mem_map] at hc
    obtain ⟨t, ht, rfl⟩ := hc
    have ht1 : t ∈ (s.transactions.filter
        (fun t => decide (since < t.timestamp))).insertionSort txDescByTime :=
      List.take_sublist 100 _ |>.mem ht
    have ht2 := (List.mem_insertionSort txDescByTime).mp ht1
    exact of_decide_eq_true (List.mem_filter.mp ht2).2
  · rw [List.length_map]
    exact List.length_take_le 100 _
  · rw [List.pairwise_map]
    exact (List.sorted_insertionSort txDescByTime
      (s.transactions.filter (fun t => decide (since < t.timestamp)))).sublist
      (List.take_sublist 100 _)

/-- One store, one product, and a single IN transaction of 5 units
recorded against store 1. -/
def wReport : DBState :=
  { stores := [⟨1, "Downtown", "Main St"⟩]
    products := [⟨1, "SKU-1", "Widget", "general", 10⟩]
    items := [⟨1, 1, 5, 1⟩]
    transactions := [⟨1, 1, TxType.IN, 5, 1, Note.plain "restock", none, none⟩] }

/-- Two stores, one product, after a 5-unit transfer from store 1 to
store 2: the ledger holds the two TRANSFER rows of that transfer. -/
def wReportT : DBState :=
  { stores := [⟨1, "Downtown", "Main St"⟩, ⟨2, "Uptown", "High St"⟩]
    products := [⟨1, "SKU-1", "Widget", "general", 10⟩]
    items := [⟨1, 1, 0, 3⟩, ⟨2, 1, 5, 3⟩]
    transactions := [transferOutTx 1 2 1 5 "Uptown" "move" none 3,
                     transferInTx 1 2 1 5 "Downtown" "move" none 3] }

/-- C9 (code bug, flagged as an open question by the spec itself):
`generate_stock_report`'s `total_in` filters by
`t.store_id == store_id` against the raw optional filter. Unfiltered
(`store_id = None`) the comparison is false for every row, so a report
over a ledger holding one IN transaction of 5 units has `total_in = 0`
and `net_change = 0` although the claim demands 5 across all stores.
Filtered to store 1, the TRANSFER row at store 1 of a transfer OUT of
store 1 is counted into `total_in = 5` although the claim counts only
incoming transfers. -/
theorem generate_stock_report_total_in_bug :
    (generate_stock_report wReport none none none).transactions =
        [⟨1, 1, TxType.IN, 5, 1, Note.plain "restock", none, none⟩] ∧
      (generate_stock_report wReport none none none).total_in = 0 ∧
      (generate_stock_report wReport none none none).net_change = 0 ∧
      (generate_stock_report wReportT none none (some 1)).transactions =
        [transferOutTx 1 2 1 5 "Uptown" "move" none 3] ∧
      (generate_stock_report wReportT none none (some 1)).total_in = 5 :=
  ⟨rfl, rfl, rfl, rfl, rfl⟩

end Retail
